import Mathlib

/-!
Shallow embedding of the credit-calculation core of `app.py` (usage-metering
service).  Numeric values are modelled by exact rationals `ℚ`; the Python
constants 0.05, 0.1, 0.2, 0.3, 5, -2 are all exact multiples of 1/20, so no
floating-point rounding artefact is reachable and `round(x, 2)` never meets a
tie (every rounded quantity is an exact multiple of 1/100).  Fallible code is
modelled with `Except`; the report lookup (`fetch_report` plus the network) is
an injected function, as the resolver only observes its result.
-/

/-- The `CREDIT_COSTS["base"]` constant. -/
def base_cost : ℚ := 1

/-- The `CREDIT_COSTS["char"]` constant. -/
def char_rate : ℚ := 0.05

/-- The `CREDIT_COSTS["third_vowel"]` constant. -/
def third_vowel_rate : ℚ := 0.3

/-- The `CREDIT_COSTS["length_penalty_threshold"]` constant. -/
def length_penalty_threshold : Nat := 100

/-- The `CREDIT_COSTS["length_penalty"]` constant. -/
def length_penalty_amount : ℚ := 5

/-- The `CREDIT_COSTS["unique_word_bonus"]` constant. -/
def unique_word_bonus : ℚ := -2

/-- The `VOWELS = "aeiouAEIOU"` constant, as a character list. -/
def VOWELS : List Char := ['a', 'e', 'i', 'o', 'u', 'A', 'E', 'I', 'O', 'U']

/-- Membership in the character class of `WORD_PATTERN = r"[a-zA-Z'-]+"`:
ASCII letters, the apostrophe (code point 39) and the hyphen. -/
def isWordChar (c : Char) : Bool :=
  ('a' ≤ c && c ≤ 'z') || ('A' ≤ c && c ≤ 'Z') || c.toNat == 39 || c == '-'

/-- Accumulator pass behind `re.findall(WORD_PATTERN, text)`: collects maximal
runs of word characters, left to right.  `acc` holds the current run reversed. -/
def wordsAux : List Char → List Char → List String
  | acc, [] => if acc.isEmpty then [] else [String.mk acc.reverse]
  | acc, c :: cs =>
    if isWordChar c then
      wordsAux (c :: acc) cs
    else if acc.isEmpty then
      wordsAux [] cs
    else
      String.mk acc.reverse :: wordsAux [] cs

/-- `extract_words(text)`: `re.findall(r"[a-zA-Z'-]+", text)`. -/
def extract_words (text : String) : List String :=
  wordsAux [] text.data

/-- The character class `[a-zA-Z0-9]` of the palindrome-cleaning regex. -/
def isAsciiAlnum (c : Char) : Bool :=
  ('a' ≤ c && c ≤ 'z') || ('A' ≤ c && c ≤ 'Z') || ('0' ≤ c && c ≤ '9')

/-- `is_palindrome(text)`: lowercase the text, drop every character outside
`[a-zA-Z0-9]`, compare with the reversal.  `Char.toLower` agrees with Python
`str.lower` on all ASCII characters, and only ASCII characters survive the
filter. -/
def is_palindrome (text : String) : Bool :=
  let cleaned_text := (text.data.map Char.toLower).filter isAsciiAlnum
  cleaned_text == cleaned_text.reverse

/-- `enumerate(text, start=1)` on a character list. -/
def enumerateFrom : Nat → List Char → List (Nat × Char)
  | _, [] => []
  | i, c :: cs => (i, c) :: enumerateFrom (i + 1) cs

/-- `calculate_third_vowel_cost(text)`: sum `0.3` over the 1-indexed positions
whose index is a multiple of 3 and whose character is a vowel. -/
def calculate_third_vowel_cost (text : String) : ℚ :=
  (((enumerateFrom 1 text.data).filter
      (fun p => p.1 % 3 == 0 && VOWELS.contains p.2)).map
    (fun _ => third_vowel_rate)).sum

/-- `calculate_char_cost(message_length)`. -/
def calculate_char_cost (message_length : Nat) : ℚ :=
  char_rate * message_length

/-- `calculate_word_costs(words)`: per length-category count times category
cost, summed over the categories short `[1,3] → 0.1`, medium `[4,7] → 0.2`,
long `[8, inf) → 0.3` (the upper bound `len(word) <= inf` of the long range is
vacuous). -/
def calculate_word_costs (words : List String) : ℚ :=
  (words.countP (fun word => 1 ≤ word.length && word.length ≤ 3) : ℚ) * 0.1
    + (words.countP (fun word => 4 ≤ word.length && word.length ≤ 7) : ℚ) * 0.2
    + (words.countP (fun word => 8 ≤ word.length) : ℚ) * 0.3

/-- Python `round(x, 2)`.  Every value the program rounds is an exact multiple
of 1/100 (all cost constants are multiples of 1/20), so no tie is reachable
and any tie-break convention yields the same function on reachable inputs. -/
def round2 (q : ℚ) : ℚ :=
  (round (100 * q) : ℤ) / 100

/-- `calculate_credits(message_text, message_id)` (the `message_id` argument
is only logged by the source). -/
def calculate_credits (message_text : String) (message_id : Int) : ℚ :=
  let message_length := message_text.length
  let words := extract_words message_text
  let char_cost := calculate_char_cost message_length
  let word_costs := calculate_word_costs words
  let third_vowel_cost := calculate_third_vowel_cost message_text
  let length_penalty :=
    if length_penalty_threshold < message_length then length_penalty_amount else 0
  let unique_bonus :=
    if words.dedup.length = words.length then unique_word_bonus else 0
  let total_cost :=
    base_cost + char_cost + word_costs + third_vowel_cost + length_penalty + unique_bonus
  let total_cost := if is_palindrome message_text then total_cost * 2 else total_cost
  max 1 (round2 total_cost)

/-- The value of `total_cost` in `calculate_credits` just before the
palindrome doubling: base + char + word + third-vowel + length penalty +
unique-word bonus. -/
def pre_doubling_total (text : String) : ℚ :=
  base_cost + calculate_char_cost text.length
    + calculate_word_costs (extract_words text)
    + calculate_third_vowel_cost text
    + (if length_penalty_threshold < text.length then length_penalty_amount else 0)
    + (if (extract_words text).dedup.length = (extract_words text).length then
        unique_word_bonus else 0)

/-- A report JSON object as observed by `process_report`: the `name` and
`credit_cost` entries (each possibly absent), plus the number of any other
keys (`extraKeys`), which only matters for the dict truthiness test
`if report_data:`. -/
structure ReportData where
  name : Option String
  credit_cost : Option ℚ
  extraKeys : Nat
deriving DecidableEq, Repr

/-- Python truthiness of the report dict: non-empty. -/
def ReportData.isTruthy (d : ReportData) : Bool :=
  d.name.isSome || d.credit_cost.isSome || d.extraKeys != 0

/-- A message dict.  Each required key is an `Option` so that a missing key
(`KeyError`) is representable; `report_id` is read with `.get`, so it is
optional in the source as well. -/
structure Message where
  id : Option Int
  timestamp : Option String
  text : Option String
  report_id : Option String
deriving DecidableEq, Repr

/-- A usage entry produced by `process_message`.  `report_name = none` models
the absence of the `"report_name"` key. -/
structure UsageRecord where
  message_id : Int
  timestamp : String
  credits_used : ℚ
  report_name : Option String
deriving DecidableEq, Repr

/-- Errors escaping `process_message`: the `ValueError("Missing key in
message: ...")` raised for an absent required key, and any exception
propagating out of the report lookup. -/
inductive PError where
  | missingKey (field : String)
  | reportFailure (msg : String)
deriving DecidableEq, Repr

/-- The result of one HTTP GET against the reports endpoint: a status code
with the decoded JSON body, or a network-level failure
(`requests.exceptions.RequestException`). -/
inductive HttpResp where
  | status (code : Nat) (body : ReportData)
  | netError
deriving DecidableEq, Repr

/-- `fetch_report(report_id)` as a function of the HTTP response it gets:
200 maps to the body, 404 to `None`, and 403 / >=500 / any other status /
network error raise.  (The `lru_cache` decorator only affects how often the
network is hit, not the value returned for a given response.) -/
def fetch_report : HttpResp → Except String (Option ReportData)
  | .status code body =>
    if code = 200 then .ok (some body)
    else if code = 404 then .ok none
    else if code = 403 then .error "Access to report details is forbidden."
    else if 500 ≤ code then .error "The reports service is currently unavailable."
    else .error "Unexpected error."
  | .netError => .error "Failed to fetch report due to an HTTP request error."

/-- `process_report(report_id, message_text, message_id)`, with the report
lookup injected.  `if report_data:` is false both for `None` and for an empty
dict; `report_data.get("credit_cost", 0)` defaults to 0. -/
def process_report (lookup : String → Except String (Option ReportData))
    (report_id : String) (message_text : String) (message_id : Int) :
    Except String (Option String × ℚ) :=
  match lookup report_id with
  | .error e => .error e
  | .ok report_data =>
    match report_data with
    | some d =>
      if d.isTruthy then .ok (d.name, d.credit_cost.getD 0)
      else .ok (none, calculate_credits message_text message_id)
    | none => .ok (none, calculate_credits message_text message_id)

/-- Python truthiness guard `if report_name:` before storing the
`"report_name"` key: both `None` and the empty string are dropped. -/
def truthyName : Option String → Option String
  | some s => if s = "" then none else some s
  | none => none

/-- `process_message(message)`, with the report lookup injected.  Keys are
read in source order (`id`, `timestamp`, then `text`); `report_id` is read
with `.get` and tested for truthiness (`None` and `""` are both falsy); a
`KeyError` becomes `ValueError("Missing key in message: ...")`, while lookup
exceptions propagate unchanged. -/
def process_message (lookup : String → Except String (Option ReportData))
    (message : Message) : Except PError UsageRecord :=
  match message.id with
  | none => .error (.missingKey "id")
  | some message_id =>
    match message.timestamp with
    | none => .error (.missingKey "timestamp")
    | some timestamp =>
      match message.report_id with
      | some rid =>
        if rid = "" then
          match message.text with
          | none => .error (.missingKey "text")
          | some txt =>
            .ok ⟨message_id, timestamp, calculate_credits txt message_id, none⟩
        else
          match message.text with
          | none => .error (.missingKey "text")
          | some txt =>
            match process_report lookup rid txt message_id with
            | .error e => .error (.reportFailure e)
            | .ok (report_name, credits_used) =>
              .ok ⟨message_id, timestamp, credits_used, truthyName report_name⟩
      | none =>
        match message.text with
        | none => .error (.missingKey "text")
        | some txt =>
          .ok ⟨message_id, timestamp, calculate_credits txt message_id, none⟩

/-- `process_messages(messages)`: build the usage list message by message, in
order; a raised exception aborts the whole loop and discards the partial
list (the `usage_data` accumulated so far never escapes). -/
def process_messages (lookup : String → Except String (Option ReportData)) :
    List Message → Except PError (List UsageRecord)
  | [] => .ok []
  | m :: rest =>
    match process_message lookup m with
    | .error e => .error e
    | .ok r =>
      match process_messages lookup rest with
      | .error e => .error e
      | .ok rs => .ok (r :: rs)

/-- The response classes the spec calls transient/server failures of the
report lookup: 403, >=500, any unexpected status (neither 200 nor 404), or a
network error. -/
def fatalResp : HttpResp → Prop
  | .status code _ => ¬ (code = 200 ∨ code = 404)
  | .netError => True

lemma sum_map_const {α : Type} (l : List α) (r : ℚ) :
    (l.map fun _ => r).sum = l.length * r := by
  induction l with
  | nil => simp
  | cons a l ih => simp [ih]; ring

lemma third_vowel_cost_eq (t : String) :
    calculate_third_vowel_cost t =
      ((enumerateFrom 1 t.data).filter
        (fun p => p.1 % 3 == 0 && VOWELS.contains p.2)).length * third_vowel_rate := by
  unfold calculate_third_vowel_cost
  exact sum_map_const _ _

lemma round2_div20 (k : ℤ) : round2 ((k : ℚ) / 20) = (k : ℚ) / 20 := by
  unfold round2
  have h : (100 : ℚ) * ((k : ℚ) / 20) = ((5 * k : ℤ) : ℚ) := by push_cast; ring
  rw [h, round_intCast]
  push_cast
  ring

lemma pre_doubling_total_div20 (t : String) :
    ∃ k : ℤ, pre_doubling_total t = (k : ℚ) / 20 := by
  unfold pre_doubling_total calculate_char_cost calculate_word_costs
  rw [third_vowel_cost_eq]
  set a := ((extract_words t).countP (fun word => 1 ≤ word.length && word.length ≤ 3))
  set b := ((extract_words t).countP (fun word => 4 ≤ word.length && word.length ≤ 7))
  set c := ((extract_words t).countP (fun word => 8 ≤ word.length))
  set n := ((enumerateFrom 1 t.data).filter
      (fun p => p.1 % 3 == 0 && VOWELS.contains p.2)).length
  by_cases hp : length_penalty_threshold < t.length <;>
    by_cases hu : (extract_words t).dedup.length = (extract_words t).length <;>
      simp only [hp, hu, if_pos, if_neg, if_true, if_false] <;>
      [ exact ⟨20 + t.length + 2 * a + 4 * b + 6 * c + 6 * n + 100 - 40, by
          unfold base_cost char_rate third_vowel_rate length_penalty_amount unique_word_bonus
          push_cast; ring⟩;
        exact ⟨20 + t.length + 2 * a + 4 * b + 6 * c + 6 * n + 100, by
          unfold base_cost char_rate third_vowel_rate length_penalty_amount
          push_cast; ring⟩;
        exact ⟨20 + t.length + 2 * a + 4 * b + 6 * c + 6 * n - 40, by
          unfold base_cost char_rate third_vowel_rate unique_word_bonus
          push_cast; ring⟩;
        exact ⟨20 + t.length + 2 * a + 4 * b + 6 * c + 6 * n, by
          unfold base_cost char_rate third_vowel_rate
          push_cast; ring⟩ ]

lemma calculate_credits_eq (t : String) (mid : Int) :
    calculate_credits t mid =
      max 1 (round2 (if is_palindrome t then pre_doubling_total t * 2
                     else pre_doubling_total t)) := rfl

lemma round2_fix_max1 (k : ℤ) : round2 (max 1 ((k : ℚ) / 20)) = max 1 ((k : ℚ) / 20) := by
  have h20 : (0 : ℚ) < 20 := by norm_num
  have h : (max 1 ((k : ℚ) / 20)) = ((max 20 k : ℤ) : ℚ) / 20 := by
    rw [Int.cast_max]
    rw [← max_div_div_right (le_of_lt h20)]
    norm_num
  rw [h, round2_div20]

lemma credits_as_div20 (t : String) (mid : Int) :
    ∃ k : ℤ, calculate_credits t mid = max 1 ((k : ℚ) / 20) := by
  obtain ⟨k, hk⟩ := pre_doubling_total_div20 t
  rw [calculate_credits_eq, hk]
  by_cases hp : is_palindrome t = true
  · refine ⟨2 * k, ?_⟩
    rw [if_pos hp]
    have h2 : (k : ℚ) / 20 * 2 = ((2 * k : ℤ) : ℚ) / 20 := by push_cast; ring
    rw [h2, round2_div20]
  · refine ⟨k, ?_⟩
    rw [if_neg hp, round2_div20]

/-- C1: for every text, `calculate_credits` is at least 1, equals
`max 1 (round2 total)` where `total` is the sum of the base, char, word,
third-vowel, length-penalty and uniqueness components doubled when the text is
a palindrome, and is already rounded to 2 decimal places (a fixed point of
`round2`). -/
theorem claim_C1 (t : String) (mid : Int) :
    1 ≤ calculate_credits t mid ∧
    calculate_credits t mid =
      max 1 (round2 (if is_palindrome t then 2 * pre_doubling_total t
                     else pre_doubling_total t)) ∧
    round2 (calculate_credits t mid) = calculate_credits t mid := by
  refine ⟨?_, ?_, ?_⟩
  · rw [calculate_credits_eq]
    exact le_max_left _ _
  · rw [calculate_credits_eq, mul_comm]
  · obtain ⟨k, hk⟩ := credits_as_div20 t mid
    rw [hk, round2_fix_max1]

/-- C6 counterexample: on `["Hi", "there", "amazing", "world"]` the medium
bucket holds 3 words (not 2: "amazing" has 7 characters, inside [4,7]) and the
long bucket holds 0 words (not 1), so the claimed breakdown
short=1×0.1, medium=2×0.2, long=1×0.3 (which would total 0.8) is wrong. -/
theorem claim_C6_counterexample :
    (["Hi", "there", "amazing", "world"].countP
      (fun word => 4 ≤ word.length && word.length ≤ 7)) ≠ 2 ∧
    (["Hi", "there", "amazing", "world"].countP
      (fun word => 8 ≤ word.length)) ≠ 1 ∧
    calculate_word_costs ["Hi", "there", "amazing", "world"] ≠
      1 * 0.1 + 2 * 0.2 + 1 * 0.3 := by
  refine ⟨by decide, by decide, ?_⟩
  unfold calculate_word_costs
  have h1 : (["Hi", "there", "amazing", "world"].countP
      (fun word => 1 ≤ word.length && word.length ≤ 3)) = 1 := by decide
  have h2 : (["Hi", "there", "amazing", "world"].countP
      (fun word => 4 ≤ word.length && word.length ≤ 7)) = 3 := by decide
  have h3 : (["Hi", "there", "amazing", "world"].countP
      (fun word => 8 ≤ word.length)) = 0 := by decide
  rw [h1, h2, h3]
  norm_num

/-- C6 (amended): `calculate_word_costs` sums per-word bucket costs with
buckets short [1,3] → 0.1, medium [4,7] → 0.2, long [8,∞) → 0.3; on
`["Hi", "there", "amazing", "world"]` the breakdown is short=1×0.1,
medium=3×0.2, long=0×0.3 ("amazing" has 7 characters, so it is medium), with
total 0.7. -/
theorem claim_C6 :
    (∀ words : List String, calculate_word_costs words =
      (words.countP (fun word => 1 ≤ word.length && word.length ≤ 3) : ℚ) * 0.1
        + (words.countP (fun word => 4 ≤ word.length && word.length ≤ 7) : ℚ) * 0.2
        + (words.countP (fun word => 8 ≤ word.length) : ℚ) * 0.3) ∧
    (["Hi", "there", "amazing", "world"].countP
      (fun word => 1 ≤ word.length && word.length ≤ 3)) = 1 ∧
    (["Hi", "there", "amazing", "world"].countP
      (fun word => 4 ≤ word.length && word.length ≤ 7)) = 3 ∧
    (["Hi", "there", "amazing", "world"].countP
      (fun word => 8 ≤ word.length)) = 0 ∧
    calculate_word_costs ["Hi", "there", "amazing", "world"] = 0.7 := by
  refine ⟨fun words => rfl, by decide, by decide, by decide, ?_⟩
  unfold calculate_word_costs
  have h1 : (["Hi", "there", "amazing", "world"].countP
      (fun word => 1 ≤ word.length && word.length ≤ 3)) = 1 := by decide
  have h2 : (["Hi", "there", "amazing", "world"].countP
      (fun word => 4 ≤ word.length && word.length ≤ 7)) = 3 := by decide
  have h3 : (["Hi", "there", "amazing", "world"].countP
      (fun word => 8 ≤ word.length)) = 0 := by decide
  rw [h1, h2, h3]
  norm_num

/-- C7: whenever `is_palindrome` holds, `calculate_credits` equals twice the
pre-doubling total floored at 1 (the rounding is the identity there); and
"A man a plan a canal Panama" is a palindrome. -/
theorem claim_C7 (t : String) (mid : Int) (h : is_palindrome t = true) :
    is_palindrome "A man a plan a canal Panama" = true ∧
    calculate_credits t mid = max 1 (2 * pre_doubling_total t) := by
  refine ⟨by decide, ?_⟩
  obtain ⟨k, hk⟩ := pre_doubling_total_div20 t
  rw [calculate_credits_eq, if_pos h, hk]
  have h2 : (k : ℚ) / 20 * 2 = ((2 * k : ℤ) : ℚ) / 20 := by push_cast; ring
  have h3 : 2 * ((k : ℚ) / 20) = ((2 * k : ℤ) : ℚ) / 20 := by push_cast; ring
  rw [h2, round2_div20, h3]

/-- C7 witness: the theorem applied to the palindrome example itself. -/
theorem claim_C7_witness :
    is_palindrome "A man a plan a canal Panama" = true ∧
    calculate_credits "A man a plan a canal Panama" 5 =
      max 1 (2 * pre_doubling_total "A man a plan a canal Panama") :=
  claim_C7 "A man a plan a canal Panama" 5 (by decide)

/-- C8: the positional-vowel cost is 0.3 times the number of 1-indexed
positions whose index is a multiple of 3 and whose character is a vowel of
either case; on "Hello, World!" there is exactly one such hit (position 9,
the second "o"), contributing 0.3. -/
theorem claim_C8 :
    (∀ t : String, calculate_third_vowel_cost t =
      (((enumerateFrom 1 t.data).filter
          (fun p => p.1 % 3 == 0 && VOWELS.contains p.2)).length : ℚ) * 0.3) ∧
    ((enumerateFrom 1 "Hello, World!".data).filter
        (fun p => p.1 % 3 == 0 && VOWELS.contains p.2)).length = 1 ∧
    calculate_third_vowel_cost "Hello, World!" = 0.3 := by
  have hcount : ((enumerateFrom 1 "Hello, World!".data).filter
      (fun p => p.1 % 3 == 0 && VOWELS.contains p.2)).length = 1 := by decide
  refine ⟨fun t => third_vowel_cost_eq t, hcount, ?_⟩
  rw [third_vowel_cost_eq, hcount]
  norm_num [third_vowel_rate]

lemma fetch_report_fatal (r : HttpResp) (h : fatalResp r) :
    ∃ s, fetch_report r = .error s := by
  cases r with
  | netError => exact ⟨_, rfl⟩
  | status code body =>
    simp only [fatalResp] at h
    push_neg at h
    simp only [fetch_report]
    rw [if_neg h.1, if_neg h.2]
    by_cases h3 : code = 403
    · rw [if_pos h3]
      exact ⟨_, rfl⟩
    · rw [if_neg h3]
      by_cases h4 : 500 ≤ code
      · rw [if_pos h4]
        exact ⟨_, rfl⟩
      · rw [if_neg h4]
        exact ⟨_, rfl⟩

lemma process_message_fatal (lookup : String → Except String (Option ReportData))
    (m : Message) (mid : Int) (ts txt rid : String)
    (hid : m.id = some mid) (hts : m.timestamp = some ts) (htxt : m.text = some txt)
    (hrid : m.report_id = some rid) (hne : rid ≠ "")
    (hlk : ∃ s, lookup rid = .error s) :
    ∃ e, process_message lookup m = .error e := by
  obtain ⟨s, hs⟩ := hlk
  exact ⟨.reportFailure s,
    by simp [process_message, process_report, hid, hts, htxt, hrid, hne, hs]⟩

lemma process_messages_error_of_mem (lookup : String → Except String (Option ReportData))
    (msgs : List Message)
    (h : ∃ m ∈ msgs, ∃ e, process_message lookup m = .error e) :
    ∃ e, process_messages lookup msgs = .error e := by
  induction msgs with
  | nil => simp at h
  | cons x xs ih =>
    obtain ⟨m, hm, e, he⟩ := h
    cases hx : process_message lookup x with
    | error e0 => exact ⟨e0, by simp [process_messages, hx]⟩
    | ok r =>
      rcases List.mem_cons.mp hm with rfl | hm'
      · rw [hx] at he
        cases he
      · obtain ⟨e1, he1⟩ := ih ⟨m, hm', e, he⟩
        exact ⟨e1, by simp [process_messages, hx, he1]⟩

/-- C5: if for some message of the batch (well-formed, with a truthy
report_id) the report endpoint answers with a fatal response class (403,
>=500, an unexpected status, or a network error), then `process_messages`
propagates an error for the whole batch: its result is an `Except.error`,
never a (partial) list of usage records, and never a silent local fallback. -/
theorem claim_C5 (responses : String → HttpResp) (msgs : List Message)
    (h : ∃ m ∈ msgs, ∃ mid ts txt rid, m.id = some mid ∧ m.timestamp = some ts ∧
      m.text = some txt ∧ m.report_id = some rid ∧ rid ≠ "" ∧ fatalResp (responses rid)) :
    ∃ e, process_messages (fun r => fetch_report (responses r)) msgs = .error e := by
  obtain ⟨m, hm, mid, ts, txt, rid, hid, hts, htxt, hrid, hne, hf⟩ := h
  apply process_messages_error_of_mem
  refine ⟨m, hm, ?_⟩
  obtain ⟨s, hs⟩ := fetch_report_fatal _ hf
  exact process_message_fatal _ m mid ts txt rid hid hts htxt hrid hne ⟨s, hs⟩

/-- C5 witness: a one-message batch whose report lookup hits a 500 answer. -/
theorem claim_C5_witness :
    ∃ e, process_messages
      (fun r => fetch_report ((fun _ => HttpResp.status 500 ⟨none, none, 0⟩) r))
      [⟨some 1, some "t", some "Hi", some "r1"⟩] = .error e :=
  claim_C5 (fun _ => HttpResp.status 500 ⟨none, none, 0⟩)
    [⟨some 1, some "t", some "Hi", some "r1"⟩]
    ⟨⟨some 1, some "t", some "Hi", some "r1"⟩, by simp, 1, "t", "Hi", "r1",
      rfl, rfl, rfl, rfl, by decide, by unfold fatalResp; decide⟩

/-- C3: when the lookup reports "not found" (`None`), the usage record falls
back to the locally computed `calculate_credits` and carries no report_name. -/
theorem claim_C3 (lookup : String → Except String (Option ReportData))
    (m : Message) (mid : Int) (ts txt rid : String)
    (hid : m.id = some mid) (hts : m.timestamp = some ts) (htxt : m.text = some txt)
    (hrid : m.report_id = some rid) (hne : rid ≠ "")
    (hlk : lookup rid = .ok none) :
    process_message lookup m = .ok ⟨mid, ts, calculate_credits txt mid, none⟩ := by
  simp [process_message, process_report, hid, hts, htxt, hrid, hne, hlk, truthyName]

/-- C3 witness: a concrete message whose report is not found. -/
theorem claim_C3_witness :
    process_message (fun _ => Except.ok none) ⟨some 1, some "t", some "Hi", some "r1"⟩ =
      Except.ok ⟨1, "t", calculate_credits "Hi" 1, none⟩ :=
  claim_C3 (fun _ => Except.ok none) ⟨some 1, some "t", some "Hi", some "r1"⟩
    1 "t" "Hi" "r1" rfl rfl rfl rfl (by decide) rfl

/-- C2 counterexample: a Report with `name = ""` and `credit_cost = 10`.  The
produced record keeps the credit_cost but drops the report_name (the
`if report_name:` truthiness guard treats the empty string like `None`), so
`report_name` is not equal to the Report's name. -/
theorem claim_C2_counterexample :
    process_message (fun _ => Except.ok (some ⟨some "", some 10, 0⟩))
        ⟨some 1, some "t", some "Hi", some "r1"⟩ =
      Except.ok ⟨1, "t", 10, none⟩ ∧
    process_message (fun _ => Except.ok (some ⟨some "", some 10, 0⟩))
        ⟨some 1, some "t", some "Hi", some "r1"⟩ ≠
      Except.ok ⟨1, "t", 10, some ""⟩ := by
  have h : process_message (fun _ => Except.ok (some ⟨some "", some 10, 0⟩))
      ⟨some 1, some "t", some "Hi", some "r1"⟩ = Except.ok ⟨1, "t", 10, none⟩ := rfl
  refine ⟨h, ?_⟩
  rw [h]
  simp

/-- C2 (amended): when the lookup returns a Report carrying both `name` and
`credit_cost`, the record's `credits_used` is the Report's `credit_cost`
verbatim (no re-flooring or re-rounding), and `report_name` equals the
Report's name when that name is non-empty; a Report whose name is the empty
string yields a record without the report_name field. -/
theorem claim_C2 (lookup : String → Except String (Option ReportData))
    (m : Message) (mid : Int) (ts txt rid : String)
    (name : String) (cost : ℚ) (extra : Nat)
    (hid : m.id = some mid) (hts : m.timestamp = some ts) (htxt : m.text = some txt)
    (hrid : m.report_id = some rid) (hne : rid ≠ "")
    (hlk : lookup rid = .ok (some ⟨some name, some cost, extra⟩)) :
    process_message lookup m =
      .ok ⟨mid, ts, cost, if name = "" then none else some name⟩ := by
  simp [process_message, process_report, hid, hts, htxt, hrid, hne, hlk,
    ReportData.isTruthy, truthyName]

/-- C2 witness: a found report with a non-empty name and cost 10. -/
theorem claim_C2_witness :
    process_message (fun _ => Except.ok (some ⟨some "Sample Report", some 10, 0⟩))
        ⟨some 1, some "t", some "Hi", some "r1"⟩ =
      Except.ok ⟨1, "t", 10, if "Sample Report" = "" then none else some "Sample Report"⟩ :=
  claim_C2 (fun _ => Except.ok (some ⟨some "Sample Report", some 10, 0⟩))
    ⟨some 1, some "t", some "Hi", some "r1"⟩ 1 "t" "Hi" "r1" "Sample Report" 10 0
    rfl rfl rfl rfl (by decide) rfl

/-- C4: a message missing `id`, `timestamp` or `text` makes `process_message`
fail with a missing-key error naming a field that is indeed missing (the
first one in the source's access order), and no usage record is produced. -/
theorem claim_C4 (lookup : String → Except String (Option ReportData))
    (m : Message) (h : m.id = none ∨ m.timestamp = none ∨ m.text = none) :
    ∃ f, process_message lookup m = .error (.missingKey f) ∧
      ((f = "id" ∧ m.id = none) ∨ (f = "timestamp" ∧ m.timestamp = none) ∨
        (f = "text" ∧ m.text = none)) := by
  obtain ⟨i, ts, txt, rid⟩ := m
  cases i with
  | none => exact ⟨"id", rfl, Or.inl ⟨rfl, rfl⟩⟩
  | some mid =>
    cases ts with
    | none => exact ⟨"timestamp", rfl, Or.inr (Or.inl ⟨rfl, rfl⟩)⟩
    | some tss =>
      cases txt with
      | some txts => simp at h
      | none =>
        refine ⟨"text", ?_, Or.inr (Or.inr ⟨rfl, rfl⟩)⟩
        cases rid with
        | none => rfl
        | some r =>
          by_cases hr : r = "" <;> simp [process_message, hr]

/-- C4 witness: a message with no `id`. -/
theorem claim_C4_witness :
    ∃ f, process_message (fun _ => Except.ok none)
        ⟨none, some "t", some "Hi", none⟩ = .error (.missingKey f) ∧
      ((f = "id" ∧ (none : Option Int) = none) ∨
        (f = "timestamp" ∧ (some "t" : Option String) = none) ∨
        (f = "text" ∧ (some "Hi" : Option String) = none)) :=
  claim_C4 (fun _ => Except.ok none) ⟨none, some "t", some "Hi", none⟩ (Or.inl rfl)

/-- C9: a found, non-empty report dict that lacks `credit_cost` makes
`process_report` default the cost to 0 (rather than falling back to the local
calculation), so the record's `credits_used` is 0, which is below 1. -/
theorem claim_C9 (lookup : String → Except String (Option ReportData))
    (m : Message) (mid : Int) (ts txt rid : String) (d : ReportData)
    (hid : m.id = some mid) (hts : m.timestamp = some ts) (htxt : m.text = some txt)
    (hrid : m.report_id = some rid) (hne : rid ≠ "")
    (hlk : lookup rid = .ok (some d)) (hcc : d.credit_cost = none)
    (htr : d.isTruthy = true) :
    process_message lookup m = .ok ⟨mid, ts, 0, truthyName d.name⟩ ∧ (0 : ℚ) < 1 := by
  refine ⟨?_, by norm_num⟩
  simp [process_message, process_report, hid, hts, htxt, hrid, hne, hlk, htr, hcc]

/-- C9 witness: report dict `{"name": "Sample Report"}` with no credit_cost. -/
theorem claim_C9_witness :
    process_message (fun _ => Except.ok (some ⟨some "Sample Report", none, 0⟩))
        ⟨some 1, some "t", some "Hi", some "r1"⟩ =
      Except.ok ⟨1, "t", 0, truthyName (some "Sample Report")⟩ ∧ (0 : ℚ) < 1 :=
  claim_C9 (fun _ => Except.ok (some ⟨some "Sample Report", none, 0⟩))
    ⟨some 1, some "t", some "Hi", some "r1"⟩ 1 "t" "Hi" "r1"
    ⟨some "Sample Report", none, 0⟩ rfl rfl rfl rfl (by decide) rfl rfl rfl

/-- C10: a message whose `report_id` is present but empty is handled exactly
like one with no `report_id`: the lookup is never consulted (the result does
not depend on it), the credits are computed locally, and no report_name is
set. -/
theorem claim_C10 (lookup lookup2 : String → Except String (Option ReportData))
    (m : Message) (mid : Int) (ts txt : String)
    (hid : m.id = some mid) (hts : m.timestamp = some ts) (htxt : m.text = some txt)
    (hrid : m.report_id = some "") :
    process_message lookup m = .ok ⟨mid, ts, calculate_credits txt mid, none⟩ ∧
    process_message lookup m = process_message lookup2 m ∧
    process_message lookup m = process_message lookup2 ⟨m.id, m.timestamp, m.text, none⟩ := by
  have h1 : ∀ lk : String → Except String (Option ReportData),
      process_message lk m = .ok ⟨mid, ts, calculate_credits txt mid, none⟩ := by
    intro lk
    simp [process_message, hid, hts, htxt, hrid]
  have h2 : process_message lookup2 ⟨m.id, m.timestamp, m.text, none⟩ =
      .ok ⟨mid, ts, calculate_credits txt mid, none⟩ := by
    simp [process_message, hid, hts, htxt]
  exact ⟨h1 lookup, (h1 lookup).trans (h1 lookup2).symm, (h1 lookup).trans h2.symm⟩

/-- C10 witness: empty report_id with two lookups that would behave very
differently if consulted. -/
theorem claim_C10_witness :
    process_message (fun _ => Except.ok none) ⟨some 1, some "t", some "Hi", some ""⟩ =
      Except.ok ⟨1, "t", calculate_credits "Hi" 1, none⟩ ∧
    process_message (fun _ => Except.ok none) ⟨some 1, some "t", some "Hi", some ""⟩ =
      process_message (fun _ => Except.error "boom") ⟨some 1, some "t", some "Hi", some ""⟩ ∧
    process_message (fun _ => Except.ok none) ⟨some 1, some "t", some "Hi", some ""⟩ =
      process_message (fun _ => Except.error "boom")
        ⟨(⟨some 1, some "t", some "Hi", some ""⟩ : Message).id,
          (⟨some 1, some "t", some "Hi", some ""⟩ : Message).timestamp,
          (⟨some 1, some "t", some "Hi", some ""⟩ : Message).text, none⟩ :=
  claim_C10 (fun _ => Except.ok none) (fun _ => Except.error "boom")
    ⟨some 1, some "t", some "Hi", some ""⟩ 1 "t" "Hi" rfl rfl rfl rfl
